import Mathlib

/-!
Shallow embedding of the task-routing and plan-execution engine of the
Multi-Agent-LLM-System repository (src/orchestrator.py, src/base_agent.py,
src/config.py, src/main_system.py), together with theorems settling the
frozen claims about it.

Modelling conventions:
- Python strings are Lean `String`; `str.lower()` is mapped per character
  (identical on the ASCII text all keywords and tasks in the claims use);
  the Python substring test `a in b` is an explicit character-list scan.
- Python dicts keyed by strings are association lists with Python's
  update semantics: overwriting keeps the key's position, a new key is
  appended (insertion order preserved).
- The external generation service (`BaseAgent._call_llm`, which wraps the
  OpenAI client) is an oracle parameter mapping the prompt it is given to
  either a response or the message of the exception it raised
  (`Except String _`); the orchestrator makes one such call when building
  a custom plan and at most one when synthesizing.
- A worker (`BaseAgent.execute` of the five registered agents) receives
  the instruction and the shared state, may update the shared context
  (the only part of the state the repository's workers write), and either
  returns a result record or raises; it is modelled as a function to
  `List (String × String) × Except String Result` (context updates
  performed during the call, then outcome). Exceptions are carried as
  their message string, matching Python's `str(e)`.
- Wall-clock timestamps and the per-agent token/usage counters are
  environment effects outside the engine's logic and are omitted from the
  records that carry them in Python; no claim mentions them.
-/

namespace MAS

/-- Character-list test that `pre` is a prefix of the second list (used to
implement Python's substring containment). -/
def charsPrefixOf : List Char → List Char → Bool
  | [], _ => true
  | _ :: _, [] => false
  | a :: as, b :: bs => a == b && charsPrefixOf as bs

/-- Character-list test that `needle` occurs contiguously in the second
list. -/
def charsInfixOf (needle : List Char) : List Char → Bool
  | [] => needle.isEmpty
  | h :: t => charsPrefixOf needle (h :: t) || charsInfixOf needle t

/-- Python's `needle in haystack` substring test on strings. -/
def strContains (haystack needle : String) : Bool :=
  charsInfixOf needle.data haystack.data

/-- Python's `str.lower()` (per-character lowering; identical on ASCII). -/
def strLower (s : String) : String :=
  String.mk (s.data.map Char.toLower)

/-- Python's `str(x)` on an optional string value: `None` prints as
"None". Used where the code stringifies `result.get("output", "")`. -/
def strOfOpt : Option String → String
  | some s => s
  | none => "None"

/-- Python `dict[k]` / `dict.get(k)` lookup on an association list. -/
def dictGet (m : List (String × α)) (k : String) : Option α :=
  (m.find? (fun p => p.1 == k)).map (fun p => p.2)

/-- Python `dict[k] = v`: overwrite in place (keeping the key's position)
or append a fresh key, preserving insertion order. -/
def dictInsert (m : List (String × α)) (k : String) (v : α) : List (String × α) :=
  if m.any (fun p => p.1 == k) then
    m.map (fun p => if p.1 == k then (k, v) else p)
  else m ++ [(k, v)]

/-- Python `dict.update(other)`: insert the pairs of `other` in order. -/
def dictUpdate (m other : List (String × α)) : List (String × α) :=
  other.foldl (fun acc p => dictInsert acc p.1 p.2) m

/-- A message passed between agents (`AgentMessage` in base_agent.py);
the `datetime.now()` timestamp is omitted (see the file comment). -/
structure AgentMessage where
  sender : String
  recipient : String
  content : String
  messageType : String
  metadata : List (String × String)
deriving DecidableEq, Repr

/-- An agent's result record, the shape produced by
`BaseAgent.format_result` and by the two failure literals in
`Orchestrator._execute_step`. `agent` is absent (`none`) in the
unregistered-agent failure literal; `output := none` models Python
`None`. The timestamp and usage counters of `format_result` are
omitted. -/
structure Result where
  agent : Option String
  output : Option String
  success : Bool
  error : Option String
  metadata : List (String × String)
deriving DecidableEq, Repr

/-- One entry of `AgentState.history`: the audit log records either an
added message or a stored result (`add_message` / `set_result`). -/
inductive HistEntry where
  | message (m : AgentMessage)
  | result (agent : String) (data : Result)
deriving DecidableEq, Repr

/-- Shared state between agents (`AgentState` in base_agent.py). Context
values are opaque payloads, modelled as strings. -/
structure AgentState where
  messages : List AgentMessage
  results : List (String × Result)
  context : List (String × String)
  history : List HistEntry
  currentAgent : Option String
  iteration : Nat
deriving DecidableEq, Repr

/-- A fresh shared state (`AgentState.__init__`). -/
def AgentState.init : AgentState :=
  { messages := [], results := [], context := [], history := [],
    currentAgent := none, iteration := 0 }

/-- `AgentState.add_message`: append the message and an audit entry. -/
def AgentState.addMessage (s : AgentState) (m : AgentMessage) : AgentState :=
  { s with messages := s.messages ++ [m],
           history := s.history ++ [HistEntry.message m] }

/-- `AgentState.set_result`: store (overwrite) the agent's result and
append an audit entry. -/
def AgentState.setResult (s : AgentState) (agent : String) (r : Result) : AgentState :=
  { s with results := dictInsert s.results agent r,
           history := s.history ++ [HistEntry.result agent r] }

/-- `AgentState.get_result`. -/
def AgentState.getResult (s : AgentState) (agent : String) : Option Result :=
  dictGet s.results agent

/-- `AgentState.update_context`: shallow merge, last write wins per key. -/
def AgentState.updateContext (s : AgentState) (updates : List (String × String)) : AgentState :=
  { s with context := dictUpdate s.context updates }

/-- One plan step, as the dicts `{"agent": ..., "action": ...}` used in
the workflow templates, the fallback plans and the parsed custom plans;
`action := none` models a dict without the "action" key (looked up with
default "execute task" at execution time). -/
structure Step where
  agent : String
  action : Option String
deriving DecidableEq, Repr

/-- A workflow template entry of `WORKFLOW_TEMPLATES` in config.py. -/
structure WorkflowTemplate where
  name : String
  description : String
  agents : List String
  steps : List Step
deriving DecidableEq, Repr

/-- A registered worker: its display name and role (from AGENT_CONFIGS)
and its `execute(action, state)` body, modelled as the context updates it
performs plus its outcome (returned result or raised exception
message). The repository's five agents read the state and write only
`state.context`. -/
structure Worker where
  name : String
  role : String
  run : String → AgentState → List (String × String) × Except String Result

/-- The keyword table hard-coded in `Orchestrator._match_template`, in
declaration order. -/
def templateKeywords : List (String × List String) :=
  [("research_report", ["research", "report", "analysis", "study"]),
   ("data_analysis", ["analyze", "data", "dataset", "csv"]),
   ("code_project", ["code", "build", "create", "program", "script"])]

/-- The static `WORKFLOW_TEMPLATES` catalogue of config.py. -/
def WORKFLOW_TEMPLATES : List (String × WorkflowTemplate) :=
  [("research_report",
    { name := "Research Report",
      description := "Create a comprehensive research report",
      agents := ["research", "data", "writing", "qa"],
      steps := [⟨"research", some "gather_information"⟩,
                ⟨"data", some "analyze_data"⟩,
                ⟨"writing", some "create_report"⟩,
                ⟨"qa", some "review_quality"⟩] }),
   ("data_analysis",
    { name := "Data Analysis",
      description := "Analyze dataset and generate insights",
      agents := ["code", "data", "writing"],
      steps := [⟨"code", some "load_and_clean_data"⟩,
                ⟨"data", some "perform_analysis"⟩,
                ⟨"data", some "create_visualizations"⟩,
                ⟨"writing", some "summarize_insights"⟩] }),
   ("code_project",
    { name := "Code Project",
      description := "Generate code with tests and documentation",
      agents := ["code", "qa", "writing"],
      steps := [⟨"code", some "generate_code"⟩,
                ⟨"code", some "write_tests"⟩,
                ⟨"qa", some "code_review"⟩,
                ⟨"writing", some "create_documentation"⟩] })]

/-- `Orchestrator._match_template`: lower-case the task, return the
catalogue entry of the first template id (in declaration order) one of
whose keywords is a substring of the task; `none` when no keyword
matches (or — dead with this catalogue — when the matched id is missing
from the catalogue, which Python's `.get` turns into `None`). -/
def matchTemplate (task : String) : Option WorkflowTemplate :=
  let taskLower := strLower task
  match templateKeywords.find? (fun p => p.2.any (fun kw => strContains taskLower kw)) with
  | some (tid, _) => dictGet WORKFLOW_TEMPLATES tid
  | none => none

/-- An element of the JSON array the generation service is asked to
return for a custom plan: an object with optional "agent" and "action"
string fields (a missing or non-string field is `none`), or a non-object
element (on which Python's `step.get` raises). -/
inductive JsonStep where
  | obj (agent : Option String) (action : Option String)
  | nonObj
deriving DecidableEq, Repr

/-- The parse outcome of the generation service's plan response:
`invalid` when `json.loads` raises `JSONDecodeError`, `array items` for
a JSON array, `otherJson` for valid JSON that is not an array (iterating
and filtering it raises). -/
inductive PlanResponse where
  | invalid
  | array (items : List JsonStep)
  | otherJson
deriving DecidableEq, Repr

/-- The planning prompt built by `Orchestrator._create_custom_plan`
(the f-string `planning_prompt`). -/
def planningPrompt (agents : List (String × Worker)) (task : String) : String :=
  "Create an execution plan for this task: " ++ task ++
  "\n\nAvailable agents:\n" ++
  String.intercalate "\n" (agents.map (fun p => "- " ++ p.1 ++ ": " ++ p.2.role)) ++
  "\n\nCreate a plan with 2-5 steps. Each step should use one agent.\n\nRespond in JSON format:\n[\n    \x7b\"agent\": \"agent_id\", \"action\": \"what to do\", \"reasoning\": \"why\"\x7d,\n    ...\n]"

/-- The list comprehension
`[step for step in plan if step.get("agent") in valid_agents]`:
keeps, in order, the objects whose "agent" field names a valid agent;
raises (here: `Except.error`, with a representative `AttributeError`
message) as soon as any element is not an object — in that case nothing
is kept, as in Python. -/
def filterSteps (validAgents : List String) : List JsonStep → Except String (List Step)
  | [] => Except.ok []
  | JsonStep.nonObj :: _ => Except.error "'str' object has no attribute 'get'"
  | JsonStep.obj a act :: rest =>
    match a with
    | some ag =>
      if validAgents.contains ag then
        match filterSteps validAgents rest with
        | Except.ok l => Except.ok (⟨ag, act⟩ :: l)
        | Except.error e => Except.error e
      else filterSteps validAgents rest
    | none => filterSteps validAgents rest

/-- `Orchestrator._create_custom_plan`. The generation call stands
outside the `try` block, so an exception it raises (`planLLM` returning
`Except.error`) propagates; `json.loads` raising `JSONDecodeError`
(`PlanResponse.invalid`) is caught and answered with the fixed default
plan; a parsed array is filtered to registered agents and replaced by the
fixed fallback plan when the filter empties it; valid non-array JSON
makes the filtering raise (only `JSONDecodeError` is caught). -/
def createCustomPlan (agents : List (String × Worker))
    (planLLM : String → Except String PlanResponse) (task : String) :
    Except String (List Step) :=
  match planLLM (planningPrompt agents task) with
  | Except.error e => Except.error e
  | Except.ok PlanResponse.invalid =>
    Except.ok [⟨"research", some "research task"⟩, ⟨"writing", some "write response"⟩]
  | Except.ok PlanResponse.otherJson =>
    Except.error "'dict' object has no attribute 'get'"
  | Except.ok (PlanResponse.array items) =>
    match filterSteps (agents.map (fun p => p.1)) items with
    | Except.error e => Except.error e
    | Except.ok plan =>
      if plan.isEmpty then
        Except.ok [⟨"research", some "gather information"⟩, ⟨"writing", some "create output"⟩]
      else Except.ok plan

/-- `Orchestrator._create_plan`: template steps on a template match, a
custom plan otherwise. -/
def createPlan (agents : List (String × Worker))
    (planLLM : String → Except String PlanResponse) (task : String) :
    Except String (List Step) :=
  match matchTemplate task with
  | some t => Except.ok t.steps
  | none => createCustomPlan agents planLLM task

/-- The outbound message `Orchestrator._execute_step` records before
invoking the worker (`AgentMessage(sender=self.agent_id, ...)`;
the orchestrator's `agent_id` is "orchestrator"). -/
def outboundMessage (agentId action : String) : AgentMessage :=
  { sender := "orchestrator", recipient := agentId, content := action,
    messageType := "task", metadata := [] }

/-- The inbound message `Orchestrator._execute_step` records after the
worker returns: stringified output plus the result's metadata. -/
def inboundMessage (agentId : String) (r : Result) : AgentMessage :=
  { sender := agentId, recipient := "orchestrator", content := strOfOpt r.output,
    messageType := "result", metadata := r.metadata }

/-- `Orchestrator._execute_step`. An unregistered agent id yields a
failed result and leaves the state untouched. Otherwise: set
`current_agent`, record the outbound message, invoke the worker (its
context updates are applied; they happen during the call in Python and
nothing observes the state in between), then either store the returned
result and record the inbound message, or catch the raised exception
into a failed result carrying its message. -/
def executeStep (agents : List (String × Worker)) (step : Step) (s : AgentState) :
    Result × AgentState :=
  let agentId := step.agent
  let action := (step.action).getD "execute task"
  match dictGet agents agentId with
  | none =>
    ({ agent := none, output := none, success := false,
       error := some ("Agent '" ++ agentId ++ "' not available"), metadata := [] }, s)
  | some w =>
    let s1 := { s with currentAgent := some agentId }
    let s2 := s1.addMessage (outboundMessage agentId action)
    match w.run action s2 with
    | (updates, Except.ok r) =>
      let s3 := s2.updateContext updates
      let s4 := s3.setResult agentId r
      let s5 := s4.addMessage (inboundMessage agentId r)
      (r, s5)
    | (updates, Except.error e) =>
      let s3 := s2.updateContext updates
      ({ agent := some agentId, output := none, success := false,
         error := some e, metadata := [] }, s3)

/-- The plan-execution loop inside `Orchestrator.execute`: run each step,
append its result regardless of success (a failed step only logs a
warning), increment `state.iteration`, and break once the iteration count
reaches `settings.max_iterations`. -/
def runSteps (agents : List (String × Worker)) (maxIterations : Nat) :
    List Step → AgentState → List Result × AgentState
  | [], s => ([], s)
  | step :: rest, s =>
    let (r, s1) := executeStep agents step s
    let s2 := { s1 with iteration := s1.iteration + 1 }
    if maxIterations ≤ s2.iteration then ([r], s2)
    else
      let (rs, s3) := runSteps agents maxIterations rest s2
      (r :: rs, s3)

/-- The successful-output collection loop of
`Orchestrator._synthesize_results`: over `zip(plan, results)`, keep
`"**name**:\n output \n"` for the successful results; looking up the
display name of an agent id missing from the registry raises `KeyError`
(unreachable from the run path, where successful results only come from
registered workers). -/
def synthOutputs (agents : List (String × Worker)) :
    List (Step × Result) → Except String (List String)
  | [] => Except.ok []
  | (step, r) :: rest =>
    if r.success then
      match dictGet agents step.agent with
      | none => Except.error ("KeyError: '" ++ step.agent ++ "'")
      | some w =>
        match synthOutputs agents rest with
        | Except.ok l =>
          Except.ok (("**" ++ w.name ++ "**:\n" ++ strOfOpt r.output ++ "\n") :: l)
        | Except.error e => Except.error e
    else synthOutputs agents rest

/-- The synthesis prompt f-string of `Orchestrator._synthesize_results`. -/
def synthesisPrompt (task outputsText : String) : String :=
  "Synthesize the following agent outputs into a comprehensive response to the user's task.\n\nOriginal Task: " ++ task ++
  "\n\nAgent Outputs:\n" ++ outputsText ++
  "\n\nProvide a well-structured, cohesive response that:\n1. Directly addresses the user's task\n2. Integrates information from all agents\n3. Maintains a clear and professional tone\n4. Includes relevant details and citations where applicable"

/-- `Orchestrator._synthesize_results`, paired with the number of
generation-service calls it makes: with no successful output it answers
the fixed sentinel without calling the service (0 calls), otherwise it
submits one synthesis request (1 call) whose outcome is the oracle's. -/
def synthesizeResults (agents : List (String × Worker))
    (synthLLM : String → Except String String) (task : String)
    (plan : List Step) (results : List Result) : Except String String × Nat :=
  match synthOutputs agents (plan.zip results) with
  | Except.error e => (Except.error e, 0)
  | Except.ok outputs =>
    if outputs.isEmpty then (Except.ok "No successful outputs from agents.", 0)
    else (synthLLM (synthesisPrompt task (String.intercalate "\n" outputs)), 1)

/-- The orchestrator's final result record: `BaseAgent.format_result`
output with the metadata fields `Orchestrator.execute` puts in it
(`plan`, `steps_executed`, `agents_used`). Python computes `agents_used`
as `list(set(...))` whose order is unspecified; it is modelled as the
agent ids of the plan with later duplicates removed. -/
structure OrchResult where
  output : Option String
  success : Bool
  error : Option String
  plan : List Step
  stepsExecuted : Nat
  agentsUsed : List String
deriving DecidableEq, Repr

/-- `Orchestrator.execute`: plan, run the loop, synthesize; the
surrounding `try`/`except` turns any exception raised on this path into
a failed result carrying the exception's message, so the caller always
gets a result record. State mutations made before an exception persist
(Python mutates the state in place). -/
def orchestratorExecute (agents : List (String × Worker)) (maxIterations : Nat)
    (planLLM : String → Except String PlanResponse)
    (synthLLM : String → Except String String)
    (task : String) (s : AgentState) : OrchResult × AgentState :=
  match createPlan agents planLLM task with
  | Except.error e =>
    ({ output := none, success := false, error := some e,
       plan := [], stepsExecuted := 0, agentsUsed := [] }, s)
  | Except.ok plan =>
    let results := (runSteps agents maxIterations plan s).1
    let s1 := (runSteps agents maxIterations plan s).2
    match (synthesizeResults agents synthLLM task plan results).1 with
    | Except.error e =>
      ({ output := none, success := false, error := some e,
         plan := [], stepsExecuted := 0, agentsUsed := [] }, s1)
    | Except.ok finalText =>
      ({ output := some finalText, success := true, error := none,
         plan := plan, stepsExecuted := results.length,
         agentsUsed := (plan.map (fun st => st.agent)).eraseDups }, s1)

/-- The execution summary of `Orchestrator.get_execution_summary`. -/
structure ExecSummary where
  totalIterations : Nat
  agentsUsed : List (String × Nat)
  messagesExchanged : Nat
  resultsGenerated : Nat
deriving DecidableEq, Repr

/-- Python's per-sender message count increment (`agents_used[msg.sender] += 1`
with a fresh key initialised to 0). -/
def bumpCount (m : List (String × Nat)) (k : String) : List (String × Nat) :=
  match dictGet m k with
  | none => m ++ [(k, 1)]
  | some n => dictInsert m k (n + 1)

/-- `Orchestrator.get_execution_summary`: iteration count, per-sender
message counts over the non-orchestrator senders, and the message and
result totals. -/
def getExecutionSummary (s : AgentState) : ExecSummary :=
  { totalIterations := s.iteration,
    agentsUsed := s.messages.foldl
      (fun acc msg => if msg.sender == "orchestrator" then acc else bumpCount acc msg.sender) [],
    messagesExchanged := s.messages.length,
    resultsGenerated := s.results.length }

/-- The run report `MultiAgentSystem.execute` hands back to the caller
(`complete_result`; wall-clock `execution_time` and `timestamp`
omitted). -/
structure RunReport where
  task : String
  output : Option String
  success : Bool
  error : Option String
  summary : ExecSummary
  state : AgentState
deriving DecidableEq, Repr

/-- `MultiAgentSystem.execute`: create a fresh state, merge the optional
initial context, run the orchestrator, and build the report from its
result and the final state. Nothing on this wrapper's own path can
raise, so its `try`/`except` contributes no further case. -/
def systemExecute (agents : List (String × Worker)) (maxIterations : Nat)
    (planLLM : String → Except String PlanResponse)
    (synthLLM : String → Except String String)
    (task : String) (context : List (String × String)) : RunReport :=
  let s0 := AgentState.init.updateContext context
  let r := (orchestratorExecute agents maxIterations planLLM synthLLM task s0).1
  let s1 := (orchestratorExecute agents maxIterations planLLM synthLLM task s0).2
  { task := task, output := r.output, success := r.success, error := r.error,
    summary := getExecutionSummary s1, state := s1 }

def invokedState (step : Step) (s : AgentState) : AgentState :=
  AgentState.addMessage { s with currentAgent := some step.agent }
    (outboundMessage step.agent ((step.action).getD "execute task"))

/-- The shared state after a step whose worker returned `r` having
performed context updates `updates`: result stored, inbound message
recorded. -/

def okFinishState (step : Step) (s : AgentState)
    (updates : List (String × String)) (r : Result) : AgentState :=
  AgentState.addMessage
    (AgentState.setResult (AgentState.updateContext (invokedState step s) updates) step.agent r)
    (inboundMessage step.agent r)

/-- Selector for the `set_result` entries of the audit history. -/
def isResultEntry : HistEntry → Bool
  | HistEntry.result _ _ => true
  | HistEntry.message _ => false

/-- The result-typed audit entries of a history log. -/
def resultEntries (l : List HistEntry) : List HistEntry :=
  l.filter isResultEntry

/-- C10: a registered worker's returned result is stored into
`state.results` via `set_result` even when it carries `success=false`
(the stored value and its fresh audit entry appear unconditionally),
while a raising worker or an unregistered id leaves the results mapping
and its audit history unchanged (a raising worker still leaves its
outbound message, but no result entry). -/

def raisingWorker (msg : String) : Worker :=
  { name := "Raising", role := "Raising", run := fun _ _ => ([], Except.error msg) }

/-- A worker that always returns the given result record and performs no
context update. -/

def returningWorker (r : Result) : Worker :=
  { name := "Returning", role := "Returning", run := fun _ _ => ([], Except.ok r) }

/-- The registry `MultiAgentSystem.__init__` builds: the five agents
under their fixed ids (worker bodies are opaque collaborators). -/

def stdAgents (wResearch wCode wData wWriting wQa : Worker) : List (String × Worker) :=
  [("research", wResearch), ("code", wCode), ("data", wData),
   ("writing", wWriting), ("qa", wQa)]

/-- C2 (amended: for a ceiling of at least 1): starting from a fresh
state, the loop executes min(plan length, ceiling) steps, hence at most
the ceiling; `iteration` always grows by exactly the number of executed
steps; and with ceiling 1 and a 3-step plan exactly step 1 is executed,
leaving one accumulated result for synthesis and `iteration` 1. -/

theorem executeStep_iteration (agents : List (String × Worker)) (step : Step) (s : AgentState) :
    (executeStep agents step s).2.iteration = s.iteration := by
  simp only [executeStep]
  split
  · rfl
  · split
    · simp [AgentState.addMessage, AgentState.setResult, AgentState.updateContext]
    · simp [AgentState.addMessage, AgentState.updateContext]

theorem runSteps_iteration (agents : List (String × Worker)) (maxIterations : Nat)
    (plan : List Step) (s : AgentState) :
    (runSteps agents maxIterations plan s).2.iteration
      = s.iteration + (runSteps agents maxIterations plan s).1.length := by
  induction plan generalizing s with
  | nil => simp [runSteps]
  | cons step rest ih =>
    simp only [runSteps]
    split
    · simp [executeStep_iteration]
    · simp only [List.length_cons]
      rw [ih]
      simp [executeStep_iteration]
      omega

theorem runSteps_length (agents : List (String × Worker)) (N : Nat)
    (plan : List Step) (s : AgentState) (h : s.iteration < N) :
    (runSteps agents N plan s).1.length = min plan.length (N - s.iteration) := by
  induction plan generalizing s with
  | nil => simp [runSteps]
  | cons step rest ih =>
    have hi := executeStep_iteration agents step s
    simp only [runSteps]
    split
    · rename_i hle
      simp only [hi] at hle
      simp only [List.length_cons, List.length_nil]
      omega
    · rename_i hle
      simp only [hi] at hle
      simp only [List.length_cons]
      have h2 : ({ (executeStep agents step s).2 with
          iteration := (executeStep agents step s).2.iteration + 1 } : AgentState).iteration < N := by
        simp only [hi]
        omega
      rw [ih _ h2]
      simp only [hi]
      omega

theorem executeStep_unregistered (agents : List (String × Worker)) (step : Step)
    (s : AgentState) (hw : dictGet agents step.agent = none) :
    executeStep agents step s =
      ({ agent := none, output := none, success := false,
         error := some ("Agent '" ++ step.agent ++ "' not available"), metadata := [] }, s) := by
  simp only [executeStep, hw]

theorem executeStep_of_run_ok (agents : List (String × Worker)) (step : Step)
    (s : AgentState) (w : Worker) (updates : List (String × String)) (r : Result)
    (hw : dictGet agents step.agent = some w)
    (hr : w.run ((step.action).getD "execute task") (invokedState step s)
      = (updates, Except.ok r)) :
    executeStep agents step s = (r, okFinishState step s updates r) := by
  simp only [invokedState] at hr
  simp only [executeStep, hw, hr, okFinishState, invokedState]

theorem executeStep_of_run_error (agents : List (String × Worker)) (step : Step)
    (s : AgentState) (w : Worker) (updates : List (String × String)) (e : String)
    (hw : dictGet agents step.agent = some w)
    (hr : w.run ((step.action).getD "execute task") (invokedState step s)
      = (updates, Except.error e)) :
    executeStep agents step s =
      ({ agent := some step.agent, output := none, success := false,
         error := some e, metadata := [] },
       AgentState.updateContext (invokedState step s) updates) := by
  simp only [invokedState] at hr
  simp only [executeStep, hw, hr, invokedState]

theorem dictGet_mem {α : Type} (m : List (String × α)) (k : String) (v : α)
    (h : dictGet m k = some v) : ∃ p ∈ m, p.1 = k ∧ p.2 = v := by
  unfold dictGet at h
  rcases Option.map_eq_some'.mp h with ⟨p, hp, hv⟩
  refine ⟨p, List.mem_of_find?_eq_some hp, ?_, hv⟩
  have := List.find?_some hp
  exact eq_of_beq this

theorem matchTemplate_mem (task : String) (t : WorkflowTemplate)
    (h : matchTemplate task = some t) : ∃ p ∈ WORKFLOW_TEMPLATES, p.2 = t := by
  simp only [matchTemplate] at h
  split at h
  · rcases dictGet_mem _ _ _ h with ⟨p, hp, _, hv⟩
    exact ⟨p, hp, hv⟩
  · exact absurd h (by simp)

theorem filterSteps_mem_valid (valid : List String) (items : List JsonStep)
    (l : List Step) (h : filterSteps valid items = Except.ok l) :
    ∀ st ∈ l, valid.contains st.agent = true := by
  induction items generalizing l with
  | nil =>
    simp only [filterSteps, Except.ok.injEq] at h
    subst h
    simp
  | cons it rest ih =>
    cases it with
    | nonObj => simp [filterSteps] at h
    | obj a act =>
      cases a with
      | none =>
        simp only [filterSteps] at h
        exact ih l h
      | some ag =>
        simp only [filterSteps] at h
        by_cases hc : valid.contains ag
        · rw [if_pos hc] at h
          cases hrest : filterSteps valid rest with
          | error e => rw [hrest] at h; exact absurd h (by simp)
          | ok l2 =>
            rw [hrest] at h
            simp only [Except.ok.injEq] at h
            subst h
            intro st hst
            rcases List.mem_cons.mp hst with hs | hs
            · subst hs; exact hc
            · exact ih l2 hrest st hs
        · rw [if_neg hc] at h
          exact ih l h

theorem synthOutputs_of_all_fail (agents : List (String × Worker))
    (pairs : List (Step × Result)) (h : ∀ pr ∈ pairs, pr.2.success = false) :
    synthOutputs agents pairs = Except.ok [] := by
  induction pairs with
  | nil => rfl
  | cons pr rest ih =>
    obtain ⟨st, r⟩ := pr
    have hr : r.success = false := h (st, r) (List.mem_cons_self _ _)
    simp only [synthOutputs, hr, Bool.false_eq_true, if_false]
    exact ih (fun q hq => h q (List.mem_cons_of_mem _ hq))

theorem matchTemplate_of_find? (task tid2 : String) (kws2 : List String)
    (hf : templateKeywords.find?
      (fun p => p.2.any (fun kw => strContains (strLower task) kw)) = some (tid2, kws2)) :
    matchTemplate task = dictGet WORKFLOW_TEMPLATES tid2 := by
  simp only [matchTemplate, hf]

theorem createPlan_of_matchTemplate (agents : List (String × Worker))
    (planLLM : String → Except String PlanResponse) (task : String)
    (t : WorkflowTemplate) (h : matchTemplate task = some t) :
    createPlan agents planLLM task = Except.ok t.steps := by
  simp only [createPlan, h]

theorem keywordId_in_catalogue (tid : String) (kws : List String)
    (h : (tid, kws) ∈ templateKeywords) :
    ∃ t, dictGet WORKFLOW_TEMPLATES tid = some t := by
  simp only [templateKeywords, List.mem_cons, List.mem_singleton, Prod.mk.injEq,
    List.not_mem_nil, or_false] at h
  rcases h with ⟨h1, _⟩ | ⟨h1, _⟩ | ⟨h1, _⟩ <;> subst h1 <;> exact ⟨_, rfl⟩

/-- C1: a task containing (case-insensitively) a keyword of some workflow
template is planned as exactly the step list of the first matching
template, in declared order (first-match-wins over the keyword table's
declaration order); in particular "Build a REST API for a todo app"
matches code_project and yields the plan [code, code, qa, writing]. -/

theorem orchestratorExecute_success_error (agents : List (String × Worker)) (N : Nat)
    (planGen : String → Except String PlanResponse) (synthLLM : String → Except String String)
    (task : String) (s : AgentState) :
    ((orchestratorExecute agents N planGen synthLLM task s).1.success = true ∧
     (orchestratorExecute agents N planGen synthLLM task s).1.error = none) ∨
    ((orchestratorExecute agents N planGen synthLLM task s).1.success = false ∧
     ∃ e, (orchestratorExecute agents N planGen synthLLM task s).1.error = some e) := by
  simp only [orchestratorExecute]
  split
  · right; exact ⟨rfl, ⟨_, rfl⟩⟩
  · split
    · right; exact ⟨rfl, ⟨_, rfl⟩⟩
    · left; exact ⟨rfl, rfl⟩

/-- C7: the caller of the run entry point always receives a run report
and never a raw exception: the report either signals success with no
error, or failure with an error message set; in particular a
`GenerationError` raised by the planner's fallback generation call (made
when no template matches) surfaces as a failed report carrying exactly
that exception's message. -/

theorem c1_template_match_returns_declared_steps :
    (∀ (task tid : String) (kws : List String),
      (tid, kws) ∈ templateKeywords →
      kws.any (fun kw => strContains (strLower task) kw) = true →
      ∃ (tid2 : String) (kws2 : List String) (t : WorkflowTemplate),
        templateKeywords.find?
          (fun p => p.2.any (fun kw => strContains (strLower task) kw)) = some (tid2, kws2) ∧
        dictGet WORKFLOW_TEMPLATES tid2 = some t ∧
        ∀ (agents : List (String × Worker)) (planLLM : String → Except String PlanResponse),
          createPlan agents planLLM task = Except.ok t.steps) ∧
    (∀ (agents : List (String × Worker)) (planLLM : String → Except String PlanResponse),
      createPlan agents planLLM "Build a REST API for a todo app" =
        Except.ok [⟨"code", some "generate_code"⟩, ⟨"code", some "write_tests"⟩,
                   ⟨"qa", some "code_review"⟩, ⟨"writing", some "create_documentation"⟩]) := by
  constructor
  · intro task tid kws hmem hany
    have hsome : (templateKeywords.find?
        (fun p => p.2.any (fun kw => strContains (strLower task) kw))).isSome :=
      List.find?_isSome.mpr ⟨(tid, kws), hmem, hany⟩
    obtain ⟨⟨tid2, kws2⟩, hf⟩ := Option.isSome_iff_exists.mp hsome
    obtain ⟨t, ht⟩ := keywordId_in_catalogue tid2 kws2 (List.mem_of_find?_eq_some hf)
    refine ⟨tid2, kws2, t, hf, ht, ?_⟩
    intro agents planLLM
    exact createPlan_of_matchTemplate agents planLLM task t
      ((matchTemplate_of_find? task tid2 kws2 hf).trans ht)
  · intro agents planLLM
    rfl

theorem c1_witness :
    (∃ (tid2 : String) (kws2 : List String) (t : WorkflowTemplate),
      templateKeywords.find?
        (fun p => p.2.any (fun kw =>
          strContains (strLower "Research the history of tea") kw)) = some (tid2, kws2) ∧
      dictGet WORKFLOW_TEMPLATES tid2 = some t ∧
      ∀ (agents : List (String × Worker)) (planLLM : String → Except String PlanResponse),
        createPlan agents planLLM "Research the history of tea" = Except.ok t.steps) ∧
    createPlan [] (fun _ => Except.error "service down") "Build a REST API for a todo app" =
      Except.ok [⟨"code", some "generate_code"⟩, ⟨"code", some "write_tests"⟩,
                 ⟨"qa", some "code_review"⟩, ⟨"writing", some "create_documentation"⟩] :=
  ⟨c1_template_match_returns_declared_steps.1 "Research the history of tea"
      "research_report" ["research", "report", "analysis", "study"] (by decide) (by decide),
   c1_template_match_returns_declared_steps.2 [] (fun _ => Except.error "service down")⟩

theorem c2_iteration_ceiling (agents : List (String × Worker)) (N : Nat)
    (plan plan2 : List Step) (s s2 : AgentState) (st1 st2 st3 : Step)
    (h0 : s.iteration = 0) (hN : 1 ≤ N) :
    (runSteps agents N plan s).1.length = min plan.length N ∧
    (runSteps agents N plan s).1.length ≤ N ∧
    (runSteps agents N plan2 s2).2.iteration
      = s2.iteration + (runSteps agents N plan2 s2).1.length ∧
    (runSteps agents 1 [st1, st2, st3] s).1 = [(executeStep agents st1 s).1] ∧
    (runSteps agents 1 [st1, st2, st3] s).2.iteration = 1 := by
  have hlen := runSteps_length agents N plan s (by omega)
  refine ⟨by simpa [h0] using hlen, ?_, runSteps_iteration agents N plan2 s2, ?_, ?_⟩
  · rw [hlen]; omega
  · simp [runSteps, executeStep_iteration, h0]
  · simp [runSteps, executeStep_iteration, h0]

theorem c2_witness :
    (runSteps [] 2 [⟨"a", none⟩, ⟨"b", none⟩, ⟨"c", none⟩] AgentState.init).1.length
      = min [(⟨"a", none⟩ : Step), ⟨"b", none⟩, ⟨"c", none⟩].length 2 ∧
    (runSteps [] 2 [⟨"a", none⟩, ⟨"b", none⟩, ⟨"c", none⟩] AgentState.init).1.length ≤ 2 ∧
    (runSteps [] 2 [⟨"a", none⟩, ⟨"b", none⟩, ⟨"c", none⟩] AgentState.init).2.iteration
      = AgentState.init.iteration
        + (runSteps [] 2 [⟨"a", none⟩, ⟨"b", none⟩, ⟨"c", none⟩] AgentState.init).1.length ∧
    (runSteps [] 1 [⟨"a", none⟩, ⟨"b", none⟩, ⟨"c", none⟩] AgentState.init).1
      = [(executeStep [] ⟨"a", none⟩ AgentState.init).1] ∧
    (runSteps [] 1 [⟨"a", none⟩, ⟨"b", none⟩, ⟨"c", none⟩] AgentState.init).2.iteration = 1 :=
  c2_iteration_ceiling [] 2 [⟨"a", none⟩, ⟨"b", none⟩, ⟨"c", none⟩]
    [⟨"a", none⟩, ⟨"b", none⟩, ⟨"c", none⟩] AgentState.init AgentState.init
    ⟨"a", none⟩ ⟨"b", none⟩ ⟨"c", none⟩ rfl (by decide)

/-- C2 counterexample: with the ceiling configured to 0 the loop still
executes the first step (the ceiling test comes after the execution), so
"at most N steps for every configured ceiling N" fails at N = 0. -/

theorem c2_counterexample :
    (runSteps [] 0 [⟨"research", none⟩] AgentState.init).1.length = 1 ∧ ¬ (1 ≤ 0) :=
  ⟨rfl, by decide⟩

theorem c3_worker_exception_isolated (agents : List (String × Worker)) (step : Step)
    (s : AgentState) (w : Worker) (e : String) (N : Nat) (rest : List Step)
    (hw : dictGet agents step.agent = some w)
    (hraise : ∀ (action : String) (st : AgentState), (w.run action st).2 = Except.error e)
    (hlt : s.iteration < N) :
    (executeStep agents step s).1.success = false ∧
    (executeStep agents step s).1.error = some e ∧
    (runSteps agents N (step :: rest) s).1.length
      = min (rest.length + 1) (N - s.iteration) := by
  have hp : w.run ((step.action).getD "execute task") (invokedState step s)
      = ((w.run ((step.action).getD "execute task") (invokedState step s)).1, Except.error e) := by
    rw [← hraise ((step.action).getD "execute task") (invokedState step s)]
  have hq := executeStep_of_run_error agents step s w _ e hw hp
  refine ⟨by rw [hq], by rw [hq], ?_⟩
  simpa using runSteps_length agents N (step :: rest) s hlt

theorem c3_witness :
    (executeStep [("w", raisingWorker "boom")] ⟨"w", none⟩ AgentState.init).1.success = false ∧
    (executeStep [("w", raisingWorker "boom")] ⟨"w", none⟩ AgentState.init).1.error = some "boom" ∧
    (runSteps [("w", raisingWorker "boom")] 5
      [(⟨"w", none⟩ : Step), ⟨"w", none⟩] AgentState.init).1.length = min (1 + 1) (5 - 0) :=
  c3_worker_exception_isolated [("w", raisingWorker "boom")] ⟨"w", none⟩
    AgentState.init (raisingWorker "boom") "boom" 5 [⟨"w", none⟩]
    rfl (fun _ _ => rfl) (by decide)

/-- C3 counterexample: a worker raising an exception whose message is
the empty string yields a failed result whose error equals that message
but is empty, refuting the claimed non-emptiness of `error`. -/

theorem c3_counterexample :
    (executeStep [("w", raisingWorker "")] ⟨"w", none⟩ AgentState.init).1.success = false ∧
    (executeStep [("w", raisingWorker "")] ⟨"w", none⟩ AgentState.init).1.error = some "" ∧
    ("" : String).length = 0 :=
  ⟨rfl, rfl, rfl⟩

/-- C4: when no template matches and the generation service's plan
response is not valid JSON (`json.loads` raises), `plan()` returns the
fixed default two-step plan — research, then writing — and the parse
failure is absorbed (the planner returns normally). -/

theorem c4_invalid_json_default_plan (agents : List (String × Worker))
    (planGen : String → Except String PlanResponse) (task : String)
    (hmatch : matchTemplate task = none)
    (hparse : planGen (planningPrompt agents task) = Except.ok PlanResponse.invalid) :
    createPlan agents planGen task =
      Except.ok [⟨"research", some "research task"⟩, ⟨"writing", some "write response"⟩] := by
  simp only [createPlan, hmatch, createCustomPlan, hparse]

theorem c4_witness :
    createPlan [] (fun _ => Except.ok PlanResponse.invalid) "hello" =
      Except.ok [⟨"research", some "research task"⟩, ⟨"writing", some "write response"⟩] :=
  c4_invalid_json_default_plan [] (fun _ => Except.ok PlanResponse.invalid) "hello"
    (by decide) rfl

theorem c5_std_plan_agents_registered (wR wC wD wW wQ : Worker)
    (planGen : String → Except String PlanResponse) (task : String) (plan : List Step)
    (h : createPlan (stdAgents wR wC wD wW wQ) planGen task = Except.ok plan) :
    plan ≠ [] ∧
    plan.all (fun st => ["research", "code", "data", "writing", "qa"].contains st.agent)
      = true := by
  simp only [createPlan] at h
  split at h
  · rename_i t hmatch
    simp only [Except.ok.injEq] at h
    subst h
    rcases matchTemplate_mem task t hmatch with ⟨p, hp, hv⟩
    subst hv
    simp only [WORKFLOW_TEMPLATES, List.mem_cons, List.not_mem_nil, or_false] at hp
    rcases hp with hp | hp | hp <;> subst hp <;> exact ⟨by decide, by decide⟩
  · simp only [createCustomPlan] at h
    split at h
    · exact absurd h (by simp)
    · simp only [Except.ok.injEq] at h
      subst h
      exact ⟨by decide, by decide⟩
    · exact absurd h (by simp)
    · rename_i items heq
      split at h
      · exact absurd h (by simp)
      · rename_i l hf
        split at h
        · simp only [Except.ok.injEq] at h
          subst h
          exact ⟨by decide, by decide⟩
        · rename_i hne
          simp only [Except.ok.injEq] at h
          subst h
          refine ⟨by simpa using hne, ?_⟩
          rw [List.all_eq_true]
          intro st hst
          have := filterSteps_mem_valid _ items _ hf st hst
          simpa [stdAgents] using this

theorem c5_witness :
    ([(⟨"research", some "research task"⟩ : Step), ⟨"writing", some "write response"⟩] ≠ []) ∧
    ([(⟨"research", some "research task"⟩ : Step), ⟨"writing", some "write response"⟩].all
      (fun st => ["research", "code", "data", "writing", "qa"].contains st.agent) = true) :=
  c5_std_plan_agents_registered (raisingWorker "r") (raisingWorker "c") (raisingWorker "d")
    (raisingWorker "w") (raisingWorker "q") (fun _ => Except.ok PlanResponse.invalid)
    "hello" [⟨"research", some "research task"⟩, ⟨"writing", some "write response"⟩] rfl

/-- C5 counterexample: with an empty registered-worker set the task
"Please research this topic" still matches the research_report template,
whose steps are returned unfiltered, so the returned plan's first step
names the unregistered worker "research". -/

theorem c5_counterexample :
    createPlan [] (fun _ => Except.ok PlanResponse.invalid) "Please research this topic" =
      Except.ok [⟨"research", some "gather_information"⟩, ⟨"data", some "analyze_data"⟩,
                 ⟨"writing", some "create_report"⟩, ⟨"qa", some "review_quality"⟩] ∧
    (([] : List (String × Worker)).map (fun p => p.1)).contains "research" = false :=
  ⟨rfl, rfl⟩

theorem c6_message_trace (agents : List (String × Worker)) (step : Step) (s : AgentState)
    (w : Worker) (updates : List (String × String)) (r : Result)
    (hw : dictGet agents step.agent = some w)
    (hr : w.run ((step.action).getD "execute task") (invokedState step s)
      = (updates, Except.ok r)) :
    (invokedState step s).messages
      = s.messages ++ [outboundMessage step.agent ((step.action).getD "execute task")] ∧
    (executeStep agents step s).2.messages
      = s.messages ++ [outboundMessage step.agent ((step.action).getD "execute task"),
                       inboundMessage step.agent r] ∧
    (executeStep agents step s).2.history
      = s.history
        ++ [HistEntry.message (outboundMessage step.agent ((step.action).getD "execute task")),
            HistEntry.result step.agent r,
            HistEntry.message (inboundMessage step.agent r)] := by
  have hq := executeStep_of_run_ok agents step s w updates r hw hr
  refine ⟨by simp [invokedState, AgentState.addMessage], ?_, ?_⟩ <;>
    simp [hq, okFinishState, invokedState, AgentState.addMessage, AgentState.setResult,
      AgentState.updateContext]

theorem c6_witness :
    (invokedState ⟨"research", some "dig"⟩ AgentState.init).messages
      = AgentState.init.messages ++ [outboundMessage "research" "dig"] ∧
    (executeStep [("research", returningWorker
        { agent := some "research", output := some "notes", success := false,
          error := some "thin sources", metadata := [] })]
        ⟨"research", some "dig"⟩ AgentState.init).2.messages
      = AgentState.init.messages
        ++ [outboundMessage "research" "dig",
            inboundMessage "research"
              { agent := some "research", output := some "notes", success := false,
                error := some "thin sources", metadata := [] }] ∧
    (executeStep [("research", returningWorker
        { agent := some "research", output := some "notes", success := false,
          error := some "thin sources", metadata := [] })]
        ⟨"research", some "dig"⟩ AgentState.init).2.history
      = AgentState.init.history
        ++ [HistEntry.message (outboundMessage "research" "dig"),
            HistEntry.result "research"
              { agent := some "research", output := some "notes", success := false,
                error := some "thin sources", metadata := [] },
            HistEntry.message (inboundMessage "research"
              { agent := some "research", output := some "notes", success := false,
                error := some "thin sources", metadata := [] })] :=
  c6_message_trace [("research", returningWorker
      { agent := some "research", output := some "notes", success := false,
        error := some "thin sources", metadata := [] })]
    ⟨"research", some "dig"⟩ AgentState.init
    (returningWorker
      { agent := some "research", output := some "notes", success := false,
        error := some "thin sources", metadata := [] })
    []
    { agent := some "research", output := some "notes", success := false,
      error := some "thin sources", metadata := [] }
    rfl rfl

/-- C6 counterexample: when the worker raises, `_execute_step` returns
from the exception handler without recording any inbound message: the
message log of the final state holds the outbound message only, so the
claimed "inbound message after invocation regardless of success or
failure" fails. -/

theorem c6_counterexample :
    (executeStep [("w", raisingWorker "boom")] ⟨"w", none⟩ AgentState.init).2.messages
      = [outboundMessage "w" "execute task"] ∧
    (executeStep [("w", raisingWorker "boom")] ⟨"w", none⟩ AgentState.init).2.messages.length
      = 1 :=
  ⟨rfl, rfl⟩

theorem c7_caller_always_gets_report (agents : List (String × Worker)) (N : Nat)
    (planGen : String → Except String PlanResponse) (synthLLM : String → Except String String)
    (task : String) (ctx : List (String × String)) (e : String) :
    (((systemExecute agents N planGen synthLLM task ctx).success = true ∧
      (systemExecute agents N planGen synthLLM task ctx).error = none) ∨
     ((systemExecute agents N planGen synthLLM task ctx).success = false ∧
      (systemExecute agents N planGen synthLLM task ctx).error.isSome = true)) ∧
    (matchTemplate task = none →
      planGen (planningPrompt agents task) = Except.error e →
      (systemExecute agents N planGen synthLLM task ctx).success = false ∧
      (systemExecute agents N planGen synthLLM task ctx).error = some e) := by
  constructor
  · rcases orchestratorExecute_success_error agents N planGen synthLLM task
      (AgentState.init.updateContext ctx) with ⟨h1, h2⟩ | ⟨h1, e2, h2⟩
    · left; exact ⟨h1, h2⟩
    · right
      refine ⟨h1, ?_⟩
      rw [show (systemExecute agents N planGen synthLLM task ctx).error
        = (orchestratorExecute agents N planGen synthLLM task
            (AgentState.init.updateContext ctx)).1.error from rfl, h2]
      rfl
  · intro hmatch hgen
    have hplan : createPlan agents planGen task = Except.error e := by
      simp only [createPlan, hmatch, createCustomPlan, hgen]
    constructor <;>
      · rw [show systemExecute agents N planGen synthLLM task ctx
          = { task := task,
              output := (orchestratorExecute agents N planGen synthLLM task
                (AgentState.init.updateContext ctx)).1.output,
              success := (orchestratorExecute agents N planGen synthLLM task
                (AgentState.init.updateContext ctx)).1.success,
              error := (orchestratorExecute agents N planGen synthLLM task
                (AgentState.init.updateContext ctx)).1.error,
              summary := getExecutionSummary (orchestratorExecute agents N planGen synthLLM task
                (AgentState.init.updateContext ctx)).2,
              state := (orchestratorExecute agents N planGen synthLLM task
                (AgentState.init.updateContext ctx)).2 } from rfl]
        simp [orchestratorExecute, hplan]

theorem c7_witness :
    (((systemExecute [] 0 (fun _ => Except.error "GenerationError: request failed")
        (fun _ => Except.ok "done") "hello" []).success = true ∧
      (systemExecute [] 0 (fun _ => Except.error "GenerationError: request failed")
        (fun _ => Except.ok "done") "hello" []).error = none) ∨
     ((systemExecute [] 0 (fun _ => Except.error "GenerationError: request failed")
        (fun _ => Except.ok "done") "hello" []).success = false ∧
      (systemExecute [] 0 (fun _ => Except.error "GenerationError: request failed")
        (fun _ => Except.ok "done") "hello" []).error.isSome = true)) ∧
    ((systemExecute [] 0 (fun _ => Except.error "GenerationError: request failed")
        (fun _ => Except.ok "done") "hello" []).success = false ∧
     (systemExecute [] 0 (fun _ => Except.error "GenerationError: request failed")
        (fun _ => Except.ok "done") "hello" []).error
       = some "GenerationError: request failed") :=
  ⟨(c7_caller_always_gets_report [] 0 (fun _ => Except.error "GenerationError: request failed")
      (fun _ => Except.ok "done") "hello" [] "GenerationError: request failed").1,
   (c7_caller_always_gets_report [] 0 (fun _ => Except.error "GenerationError: request failed")
      (fun _ => Except.ok "done") "hello" [] "GenerationError: request failed").2
     (by decide) rfl⟩

theorem c8_fallback_plan_nonempty (agents : List (String × Worker))
    (planGen : String → Except String PlanResponse) (task : String)
    (items : List JsonStep) (plan : List Step)
    (hmatch : matchTemplate task = none)
    (hresp : planGen (planningPrompt agents task) = Except.ok (PlanResponse.array items))
    (h : createPlan agents planGen task = Except.ok plan) :
    1 ≤ plan.length := by
  simp only [createPlan, hmatch, createCustomPlan, hresp] at h
  split at h
  · exact absurd h (by simp)
  · rename_i l hf
    split at h
    · simp only [Except.ok.injEq] at h
      subst h
      decide
    · rename_i hne
      simp only [Except.ok.injEq] at h
      subst h
      cases l with
      | nil => simp at hne
      | cons a t => simp

theorem c8_witness :
    1 ≤ [(⟨"research", some "look into it"⟩ : Step)].length :=
  c8_fallback_plan_nonempty [("research", raisingWorker "r")]
    (fun _ => Except.ok (PlanResponse.array [JsonStep.obj (some "research") (some "look into it")]))
    "hello" [JsonStep.obj (some "research") (some "look into it")]
    [⟨"research", some "look into it"⟩] (by decide) rfl rfl

/-- C8 counterexample: a valid JSON response with six steps naming a
registered worker is returned as a six-step plan — the planner never
checks the 2-5 bound on the fallback path. -/

theorem c8_counterexample :
    createPlan [("research", raisingWorker "r")]
      (fun _ => Except.ok (PlanResponse.array
        (List.replicate 6 (JsonStep.obj (some "research") (some "step"))))) "hello"
      = Except.ok (List.replicate 6 (⟨"research", some "step"⟩ : Step)) ∧
    (List.replicate 6 (⟨"research", some "step"⟩ : Step)).length = 6 ∧
    ¬ (2 ≤ 6 ∧ 6 ≤ 5) :=
  ⟨rfl, rfl, by decide⟩

/-- C9: with zero successful step results the synthesizer answers the
fixed sentinel message and makes no generation-service call (the call
count of the synthesis phase is 0). -/

theorem c9_no_success_no_generation_call (agents : List (String × Worker))
    (synthLLM : String → Except String String) (task : String)
    (plan : List Step) (results : List Result)
    (h : ∀ r ∈ results, r.success = false) :
    synthesizeResults agents synthLLM task plan results
      = (Except.ok "No successful outputs from agents.", 0) := by
  have hall : ∀ pr ∈ plan.zip results, pr.2.success = false := by
    intro pr hpr
    obtain ⟨a, b⟩ := pr
    exact h b (List.of_mem_zip hpr).2
  simp [synthesizeResults, synthOutputs_of_all_fail agents _ hall]

theorem c9_witness :
    synthesizeResults [] (fun _ => Except.ok "merged") "analyze the data"
      [⟨"data", none⟩]
      [{ agent := some "data", output := none, success := false,
         error := some "no dataset", metadata := [] }]
      = (Except.ok "No successful outputs from agents.", 0) :=
  c9_no_success_no_generation_call [] (fun _ => Except.ok "merged") "analyze the data"
    [⟨"data", none⟩]
    [{ agent := some "data", output := none, success := false,
       error := some "no dataset", metadata := [] }]
    (by decide)

theorem c10_result_storage (agents : List (String × Worker)) (step : Step) (s : AgentState)
    (w : Worker) (updates : List (String × String)) (r : Result) (e : String) :
    (dictGet agents step.agent = some w →
      w.run ((step.action).getD "execute task") (invokedState step s)
        = (updates, Except.ok r) →
      (executeStep agents step s).2.results = dictInsert s.results step.agent r ∧
      resultEntries (executeStep agents step s).2.history
        = resultEntries s.history ++ [HistEntry.result step.agent r]) ∧
    (dictGet agents step.agent = some w →
      w.run ((step.action).getD "execute task") (invokedState step s)
        = (updates, Except.error e) →
      (executeStep agents step s).2.results = s.results ∧
      resultEntries (executeStep agents step s).2.history = resultEntries s.history) ∧
    (dictGet agents step.agent = none →
      (executeStep agents step s).2 = s) := by
  refine ⟨fun hw hr => ?_, fun hw hr => ?_, fun hw => ?_⟩
  · have hq := executeStep_of_run_ok agents step s w updates r hw hr
    constructor <;>
      simp [hq, okFinishState, invokedState, AgentState.addMessage, AgentState.setResult,
        AgentState.updateContext, resultEntries, isResultEntry]
  · have hq := executeStep_of_run_error agents step s w updates e hw hr
    constructor <;>
      simp [hq, invokedState, AgentState.addMessage, AgentState.updateContext,
        resultEntries, isResultEntry]
  · rw [executeStep_unregistered agents step s hw]

theorem c10_witness :
    ((executeStep [("data", returningWorker
        { agent := some "data", output := none, success := false,
          error := some "bad csv", metadata := [] })]
        ⟨"data", none⟩ AgentState.init).2.results
      = dictInsert AgentState.init.results "data"
          { agent := some "data", output := none, success := false,
            error := some "bad csv", metadata := [] } ∧
     resultEntries (executeStep [("data", returningWorker
        { agent := some "data", output := none, success := false,
          error := some "bad csv", metadata := [] })]
        ⟨"data", none⟩ AgentState.init).2.history
      = resultEntries AgentState.init.history
        ++ [HistEntry.result "data"
            { agent := some "data", output := none, success := false,
              error := some "bad csv", metadata := [] }]) ∧
    ((executeStep [("data", raisingWorker "crash")] ⟨"data", none⟩ AgentState.init).2.results
      = AgentState.init.results ∧
     resultEntries (executeStep [("data", raisingWorker "crash")]
        ⟨"data", none⟩ AgentState.init).2.history
      = resultEntries AgentState.init.history) ∧
    ((executeStep [] ⟨"data", none⟩ AgentState.init).2 = AgentState.init) :=
  ⟨(c10_result_storage [("data", returningWorker
      { agent := some "data", output := none, success := false,
        error := some "bad csv", metadata := [] })]
      ⟨"data", none⟩ AgentState.init
      (returningWorker
        { agent := some "data", output := none, success := false,
          error := some "bad csv", metadata := [] })
      [] { agent := some "data", output := none, success := false,
           error := some "bad csv", metadata := [] } "unused").1 rfl rfl,
   ((c10_result_storage [("data", raisingWorker "crash")] ⟨"data", none⟩ AgentState.init
      (raisingWorker "crash") []
      { agent := none, output := none, success := true, error := none, metadata := [] }
      "crash").2.1 rfl rfl),
   ((c10_result_storage [] ⟨"data", none⟩ AgentState.init (raisingWorker "unused") []
      { agent := none, output := none, success := true, error := none, metadata := [] }
      "unused").2.2 rfl)⟩

end MAS
